import Mathlib

/-!
Verification of the gotplans repository: a shallow embedding of the
plan-template selection (`planningService`), the three agent recorders
(`researchService.conductResearch`, `executionService.executeTask`,
`deploymentService.deployProject`) and the bulk workflow runner
(`PlanVisualization.handleAutoStartAll`), together with theorems settling
the frozen claims about them.

Persistence (supabase) and the content/edge-function stubs are external
collaborators: each fallible collaborator call is resolved by an explicit
oracle field, one per call site, so the services' control flow (their
try/catch skeletons and data mapping) is embedded exactly as written.
-/

/- ===================== JS string primitives ===================== -/

/-- ASCII case folding of one character, as `String.prototype.toLowerCase`
acts on the ASCII range (all keywords and titles involved are ASCII). -/
def asciiLowerChar (c : Char) : Char :=
  if 'A' ≤ c ∧ c ≤ 'Z' then Char.ofNat (c.toNat + 32) else c

/-- `s.toLowerCase()` on ASCII text. -/
def asciiLower (s : String) : String := ⟨s.data.map asciiLowerChar⟩

/-- `needle` occurs at the head of `hay`. -/
def headMatch : List Char → List Char → Bool
  | [], _ => true
  | _ :: _, [] => false
  | a :: as, b :: bs => a == b && headMatch as bs

/-- `needle` occurs somewhere in `hay` (contiguous substring). -/
def subOccurs (needle : List Char) : List Char → Bool
  | [] => needle.isEmpty
  | c :: rest => headMatch needle (c :: rest) || subOccurs needle rest

/-- JS `s.includes(pat)`. -/
def jsIncludes (s pat : String) : Bool := subOccurs pat.data s.data

/- ===================== planningService.ts ===================== -/

/-- One plan-step draft as produced by `analyzeGoalAndCreatePlans`
(the `Omit<TaskPlan, 'id' | 'goal_id' | 'created_at'>` shape). -/
structure PlanDraft where
  title : String
  description : String
  sequence_order : Nat
  estimated_duration : String
  priority : String
  status : String
deriving DecidableEq, Repr

/-- The business/startup/company template (5 steps). -/
def businessPlans : List PlanDraft :=
  [ { title := "Market Research & Validation",
      description := "Research your target market, validate your business idea, and analyze competitors",
      sequence_order := 1, estimated_duration := "2-3 weeks", priority := "high", status := "pending" },
    { title := "Business Plan Development",
      description := "Create a comprehensive business plan including financial projections and strategy",
      sequence_order := 2, estimated_duration := "1-2 weeks", priority := "high", status := "pending" },
    { title := "Legal Structure & Registration",
      description := "Choose business structure, register your business, and handle legal requirements",
      sequence_order := 3, estimated_duration := "1 week", priority := "medium", status := "pending" },
    { title := "Product/Service Development",
      description := "Develop your minimum viable product or service offering",
      sequence_order := 4, estimated_duration := "4-8 weeks", priority := "high", status := "pending" },
    { title := "Marketing & Launch Strategy",
      description := "Develop marketing materials, build online presence, and plan your launch",
      sequence_order := 5, estimated_duration := "2-3 weeks", priority := "medium", status := "pending" } ]

/-- The learn/study/development template (5 steps). -/
def learnPlans : List PlanDraft :=
  [ { title := "Foundation & Prerequisites",
      description := "Establish fundamental knowledge and ensure you have necessary prerequisites",
      sequence_order := 1, estimated_duration := "1-2 weeks", priority := "high", status := "pending" },
    { title := "Structured Learning Path",
      description := "Follow a systematic curriculum with hands-on practice and projects",
      sequence_order := 2, estimated_duration := "8-12 weeks", priority := "high", status := "pending" },
    { title := "Practical Application",
      description := "Build real projects to apply your knowledge and create a portfolio",
      sequence_order := 3, estimated_duration := "4-6 weeks", priority := "medium", status := "pending" },
    { title := "Advanced Topics",
      description := "Dive deeper into specialized areas and advanced concepts",
      sequence_order := 4, estimated_duration := "3-4 weeks", priority := "medium", status := "pending" },
    { title := "Community & Networking",
      description := "Join communities, attend events, and build professional connections",
      sequence_order := 5, estimated_duration := "Ongoing", priority := "low", status := "pending" } ]

/-- The travel/vacation/trip template (4 steps in the source). -/
def travelPlans : List PlanDraft :=
  [ { title := "Destination Research & Planning",
      description := "Research destinations, create itinerary, and plan activities",
      sequence_order := 1, estimated_duration := "1-2 weeks", priority := "high", status := "pending" },
    { title := "Budget Planning & Booking",
      description := "Set budget, book flights, accommodations, and major activities",
      sequence_order := 2, estimated_duration := "1 week", priority := "high", status := "pending" },
    { title := "Documentation & Preparation",
      description := "Handle passports, visas, travel insurance, and packing preparation",
      sequence_order := 3, estimated_duration := "2-3 weeks", priority := "medium", status := "pending" },
    { title := "Final Preparations",
      description := "Complete packing, arrange transportation, and handle last-minute details",
      sequence_order := 4, estimated_duration := "3-5 days", priority := "medium", status := "pending" } ]

/-- The event/party/fundrais template (5 steps). -/
def eventPlans : List PlanDraft :=
  [ { title := "Event Concept & Planning",
      description := "Define event goals, theme, target audience, and initial planning",
      sequence_order := 1, estimated_duration := "1 week", priority := "high", status := "pending" },
    { title := "Venue & Date Selection",
      description := "Research and book venue, set date, and handle initial logistics",
      sequence_order := 2, estimated_duration := "1-2 weeks", priority := "high", status := "pending" },
    { title := "Vendor Coordination",
      description := "Book catering, entertainment, equipment, and other necessary services",
      sequence_order := 3, estimated_duration := "2-3 weeks", priority := "medium", status := "pending" },
    { title := "Marketing & Promotion",
      description := "Create promotional materials, manage registrations, and build awareness",
      sequence_order := 4, estimated_duration := "3-4 weeks", priority := "medium", status := "pending" },
    { title := "Final Preparations & Execution",
      description := "Handle final details, coordinate day-of logistics, and execute the event",
      sequence_order := 5, estimated_duration := "1 week", priority := "high", status := "pending" } ]

/-- The generic fallback template (5 steps). -/
def genericPlans : List PlanDraft :=
  [ { title := "Goal Analysis & Requirements",
      description := "Break down the goal into specific requirements and success criteria",
      sequence_order := 1, estimated_duration := "2-3 days", priority := "high", status := "pending" },
    { title := "Resource Planning",
      description := "Identify and secure necessary resources, tools, and support",
      sequence_order := 2, estimated_duration := "3-5 days", priority := "high", status := "pending" },
    { title := "Implementation Phase",
      description := "Execute the main work required to achieve your goal",
      sequence_order := 3, estimated_duration := "2-4 weeks", priority := "high", status := "pending" },
    { title := "Review & Optimization",
      description := "Review progress, make adjustments, and optimize your approach",
      sequence_order := 4, estimated_duration := "3-5 days", priority := "medium", status := "pending" },
    { title := "Completion & Follow-up",
      description := "Finalize deliverables and plan for maintenance or next steps",
      sequence_order := 5, estimated_duration := "1-2 days", priority := "medium", status := "pending" } ]

/-- `planningService.analyzeGoalAndCreatePlans`: lower-case the goal and test the
keyword groups in source order, returning the first matching fixed template. -/
def analyzeGoalAndCreatePlans (goal : String) : List PlanDraft :=
  let lowerGoal := asciiLower goal
  if jsIncludes lowerGoal "business" || jsIncludes lowerGoal "startup" || jsIncludes lowerGoal "company" then
    businessPlans
  else if jsIncludes lowerGoal "learn" || jsIncludes lowerGoal "study" || jsIncludes lowerGoal "development" then
    learnPlans
  else if jsIncludes lowerGoal "travel" || jsIncludes lowerGoal "vacation" || jsIncludes lowerGoal "trip" then
    travelPlans
  else if jsIncludes lowerGoal "event" || jsIncludes lowerGoal "party" || jsIncludes lowerGoal "fundrais" then
    eventPlans
  else
    genericPlans

/-- The spec phrasing of the matching policy: an explicit ordered list of
(keyword-group, template) pairs, evaluated top-down with a mandatory
generic default. -/
def planKeywordGroups : List (List String × List PlanDraft) :=
  [ (["business", "startup", "company"], businessPlans),
    (["learn", "study", "development"], learnPlans),
    (["travel", "vacation", "trip"], travelPlans),
    (["event", "party", "fundrais"], eventPlans) ]

/-- Top-down dispatch over ordered (keyword-group, template) pairs;
the first group with any keyword present as a substring wins. -/
def dispatchTemplates (lowerGoal : String) : List (List String × List PlanDraft) → List PlanDraft
  | [] => genericPlans
  | g :: rest =>
      if g.1.any (fun k => jsIncludes lowerGoal k) then g.2 else dispatchTemplates lowerGoal rest

/-- Template selection as the spec words it: lower-case, then first matching
group in the fixed order business, learn, travel, event, else generic. -/
def firstMatchingTemplate (goal : String) : List PlanDraft :=
  dispatchTemplates (asciiLower goal) planKeywordGroups

/- ===================== researchService.ts ===================== -/

/-- The four-value request status enum shared by the request tables. -/
inductive ReqStatus
  | pending
  | inProgress
  | completed
  | failed
deriving DecidableEq, Repr

/-- One row written to `research_results` (ids/timestamps are the
persistence collaborator's concern and are omitted). -/
structure ResearchRow where
  source_url : Option String
  title : String
  content : String
  summary : Option String
  relevance_score : Int
deriving DecidableEq, Repr

/-- One result object as returned by the `research-agent` edge function;
its `relevance_score` may be absent. -/
structure IncomingResult where
  source_url : Option String
  title : String
  content : String
  summary : Option String
  relevance_score : Option Int
deriving DecidableEq, Repr

/-- JS `result.relevance_score || 5`: both a missing score and a score of 0
(0 is falsy) are replaced by 5. -/
def jsOrFive : Option Int → Int
  | none => 5
  | some v => if v = 0 then 5 else v

/-- `Math.min(10, Math.max(1, result.relevance_score || 5))`. -/
def clampScore (s : Option Int) : Int := min 10 (max 1 (jsOrFive s))

/-- The per-result mapping applied before inserting into `research_results`. -/
def toResearchRow (r : IncomingResult) : ResearchRow :=
  { source_url := r.source_url, title := r.title, content := r.content,
    summary := r.summary, relevance_score := clampScore r.relevance_score }

/-- `generateFallbackResults`: keyword-matched canned research rows built from
the query, used when the edge function or result persistence fails. -/
def generateFallbackResults (query : String) : List ResearchRow :=
  let lowerQuery := asciiLower query
  if jsIncludes lowerQuery "market" || jsIncludes lowerQuery "business" || jsIncludes lowerQuery "competitor" then
    [ { source_url := some "https://marketresearch.com/industry-analysis",
        title := "Market Analysis: " ++ query,
        content := "Comprehensive market research for " ++ query ++ " indicates strong growth potential with emerging opportunities. Industry experts suggest focusing on digital transformation and customer experience improvements. Key market drivers include technological advancement and changing consumer preferences.",
        summary := some "Market shows growth potential with focus on digital transformation",
        relevance_score := 8 },
      { source_url := some "https://competitoranalysis.com/reports",
        title := "Competitive Analysis: " ++ query,
        content := "Competitive landscape analysis reveals opportunities for differentiation in " ++ query ++ ". Top competitors show strengths in established market presence but weaknesses in innovation and customer service. Market gaps exist in mobile experience and personalization.",
        summary := some "Competitive analysis shows opportunities for differentiation",
        relevance_score := 7 },
      { source_url := some "https://industryreport.com/trends",
        title := "Industry Trends: " ++ query,
        content := "Latest trends in " ++ query ++ " show increased adoption of AI and automation, sustainable practices, and customer-centric approaches. Industry growth rate projected at 12-15% annually with significant investment in technology infrastructure.",
        summary := some "Industry trends favor AI adoption and sustainable practices",
        relevance_score := 8 } ]
  else if jsIncludes lowerQuery "learn" || jsIncludes lowerQuery "course" || jsIncludes lowerQuery "development" || jsIncludes lowerQuery "skill" then
    [ { source_url := some "https://education-platform.com/courses",
        title := "Learning Path: " ++ query,
        content := "Structured learning approach for " ++ query ++ " includes foundational concepts, hands-on practice, and real-world projects. Recommended timeline: 3-6 months for proficiency. Key resources include online courses, documentation, and community forums.",
        summary := some "Structured 3-6 month learning path with hands-on practice",
        relevance_score := 9 },
      { source_url := some "https://skillassessment.com/reports",
        title := "Skills Assessment: " ++ query,
        content := "Current market demand for " ++ query ++ " skills shows 25% year-over-year growth. Top employers seek practical experience and portfolio projects. Average learning time: 200-400 hours for proficiency. High demand in tech, finance, and healthcare sectors.",
        summary := some "25% growth in demand, 200-400 hours typical learning time",
        relevance_score := 8 },
      { source_url := some "https://learningresources.com/guides",
        title := "Resource Guide: " ++ query,
        content := "Comprehensive resource compilation for " ++ query ++ " including free and paid options. Best practices include combining theoretical study with practical projects, joining communities, and seeking mentorship. Success rate higher with structured approach.",
        summary := some "Comprehensive resources with emphasis on practical projects",
        relevance_score := 7 } ]
  else if jsIncludes lowerQuery "travel" || jsIncludes lowerQuery "destination" || jsIncludes lowerQuery "vacation" then
    [ { source_url := some "https://travel-guide.com/destinations",
        title := "Travel Guide: " ++ query,
        content := "Complete travel information for " ++ query ++ " including best times to visit, must-see attractions, local customs, and practical tips. Budget estimates, transportation options, and accommodation recommendations included. Safety guidelines and cultural considerations provided.",
        summary := some "Complete travel guide with budget estimates and cultural tips",
        relevance_score := 9 },
      { source_url := some "https://travel-costs.com/calculator",
        title := "Travel Costs: " ++ query,
        content := "Detailed cost breakdown for " ++ query ++ " including accommodation ($50-200/night), meals ($30-80/day), transportation, and activities. Seasonal price variations and money-saving tips. Budget options and luxury alternatives compared.",
        summary := some "Detailed cost breakdown with budget and luxury options",
        relevance_score := 8 },
      { source_url := some "https://travel-requirements.com/info",
        title := "Travel Requirements: " ++ query,
        content := "Current travel requirements including visa policies, vaccination requirements, and documentation needed. Entry procedures, customs regulations, and travel insurance recommendations. Updated health and safety protocols.",
        summary := some "Current travel requirements and health protocols",
        relevance_score := 8 } ]
  else if jsIncludes lowerQuery "technology" || jsIncludes lowerQuery "software" || jsIncludes lowerQuery "app" || jsIncludes lowerQuery "web" then
    [ { source_url := some "https://tech-analysis.com/reviews",
        title := "Technology Review: " ++ query,
        content := "In-depth technical analysis of " ++ query ++ " covering features, performance, scalability, and implementation considerations. Comparison with alternatives, pros/cons analysis, and real-world case studies. Expert recommendations and best practices.",
        summary := some "Technical analysis with performance metrics and case studies",
        relevance_score := 9 },
      { source_url := some "https://implementation-guide.com/tutorials",
        title := "Implementation Guide: " ++ query,
        content := "Step-by-step implementation guide for " ++ query ++ " including setup instructions, configuration options, and common troubleshooting solutions. Code examples, architecture patterns, and optimization techniques provided.",
        summary := some "Step-by-step implementation with code examples",
        relevance_score := 8 },
      { source_url := some "https://tech-trends.com/analysis",
        title := "Technology Trends: " ++ query,
        content := "Current trends and future outlook for " ++ query ++ " in the technology landscape. Adoption rates, market leaders, emerging alternatives, and investment trends. Impact on business operations and competitive advantages.",
        summary := some "Technology trends and market adoption analysis",
        relevance_score := 7 } ]
  else
    [ { source_url := some "https://research-database.com/analysis",
        title := "Comprehensive Analysis: " ++ query,
        content := "Detailed research findings for " ++ query ++ " based on current data and expert analysis. Key insights include market opportunities, implementation strategies, and success factors. Multiple perspectives and case studies provide comprehensive understanding.",
        summary := some ("Comprehensive research findings and expert analysis for " ++ query),
        relevance_score := 7 },
      { source_url := some "https://expert-insights.com/reports",
        title := "Expert Insights: " ++ query,
        content := "Professional analysis and recommendations for " ++ query ++ " from industry experts. Covers best practices, common challenges, and proven solutions. Strategic considerations and tactical implementation approaches discussed.",
        summary := some "Expert recommendations and best practices",
        relevance_score := 8 },
      { source_url := some "https://case-studies.com/examples",
        title := "Case Studies: " ++ query,
        content := "Real-world examples and case studies related to " ++ query ++ ". Success stories, lessons learned, and practical applications demonstrated. Measurable outcomes and implementation timelines provided for reference.",
        summary := some "Real-world case studies with measurable outcomes",
        relevance_score := 6 } ]

/-- Outcomes of the external calls made by one `conductResearch` invocation,
one field per call site, in source order. -/
structure ResearchOracle where
  /-- the `research_requests` insert returns a row -/
  reqInsertOk : Bool
  /-- `some rs`: the edge function resolved with `data.results = rs`;
  `none`: it returned an error or no results (both throw into the catch) -/
  edgeResults : Option (List IncomingResult)
  /-- the `research_results` insert of the mapped rows succeeds -/
  resultsInsertOk : Bool
  /-- the (single) terminal status-update write on `research_requests` succeeds;
  the code never inspects this outcome -/
  updOk : Bool
  /-- the best-effort insert of the fallback rows succeeds -/
  fallbackInsertOk : Bool
deriving Repr

/-- Observable outcome of one `conductResearch` invocation. -/
structure ResearchRun where
  /-- what the caller sees: the returned rows, or a raised error -/
  result : Except String (List ResearchRow)
  /-- the `research_requests` row was created -/
  requestCreated : Bool
  /-- the terminal status update issued on the request row, if any -/
  statusIssued : Option ReqStatus
  /-- the request status in the store after the run (`none` if no row) -/
  statusFinal : Option ReqStatus
  /-- rows durably written to `research_results` -/
  persisted : List ResearchRow
deriving Repr

/-- The catch block of `conductResearch`: mark the request failed, generate
fallback rows from the query, best-effort persist them, and return them
(the nested save failure is swallowed). -/
def researchCatch (query : String) (o : ResearchOracle) : ResearchRun :=
  let fallback := generateFallbackResults query
  { result := .ok fallback,
    requestCreated := true,
    statusIssued := some .failed,
    statusFinal := some (if o.updOk then .failed else .inProgress),
    persisted := if o.fallbackInsertOk then fallback else [] }

/-- `researchService.conductResearch`: create the request (`in_progress`),
call the edge function, clamp and persist the results, mark completed;
any failure after creation goes to `researchCatch`. -/
def conductResearch (query : String) (o : ResearchOracle) : ResearchRun :=
  if !o.reqInsertOk then
    { result := .error "Failed to create research request",
      requestCreated := false, statusIssued := none, statusFinal := none, persisted := [] }
  else
    match o.edgeResults with
    | some incoming =>
        let rows := incoming.map toResearchRow
        if o.resultsInsertOk then
          { result := .ok rows,
            requestCreated := true,
            statusIssued := some .completed,
            statusFinal := some (if o.updOk then .completed else .inProgress),
            persisted := rows }
        else researchCatch query o
    | none => researchCatch query o

/- ===================== executionService.ts ===================== -/

/-- One row written to `execution_results`. -/
structure ExecRow where
  output_type : String
  content : String
  file_path : Option String
  success : Bool
  error_message : Option String
deriving DecidableEq, Repr

/-- Outcomes of the external calls made by one `executeTask` invocation. -/
structure ExecOracle where
  /-- the `execution_requests` insert returns a row -/
  reqInsertOk : Bool
  /-- `performExecution` resolved with these rows, or rejected with this
  message (the `default` branch throws on an unknown execution type) -/
  performOutcome : Except String (List ExecRow)
  /-- the `execution_results` insert of the produced rows succeeds -/
  resultsInsertOk : Bool
  /-- the best-effort insert of the single error row succeeds; the code
  never inspects this outcome -/
  errInsertOk : Bool
  /-- the (single) terminal status-update write succeeds; never inspected -/
  updOk : Bool
deriving Repr

/-- Observable outcome of one `executeTask` invocation. -/
structure ExecRun where
  result : Except String (List ExecRow)
  requestCreated : Bool
  statusIssued : Option ReqStatus
  statusFinal : Option ReqStatus
  persisted : List ExecRow
deriving Repr

/-- The single error row inserted by the catch block of `executeTask`. -/
def execErrorRow (msg : String) : ExecRow :=
  { output_type := "error", content := msg, file_path := none,
    success := false, error_message := some msg }

/-- The catch block of `executeTask`: best-effort insert of an error row,
mark the request failed, then `throw error` re-raises to the caller. -/
def execCatch (msg : String) (o : ExecOracle) : ExecRun :=
  { result := .error msg,
    requestCreated := true,
    statusIssued := some .failed,
    statusFinal := some (if o.updOk then .failed else .inProgress),
    persisted := if o.errInsertOk then [execErrorRow msg] else [] }

/-- `executionService.executeTask`: create the request (`in_progress`),
run `performExecution`, persist its rows, mark completed; any failure
after creation goes to `execCatch`, which re-raises. -/
def executeTask (executionType instructions : String) (o : ExecOracle) : ExecRun :=
  if !o.reqInsertOk then
    { result := .error "Failed to create execution request",
      requestCreated := false, statusIssued := none, statusFinal := none, persisted := [] }
  else
    match o.performOutcome with
    | .ok rows =>
        if o.resultsInsertOk then
          { result := .ok rows,
            requestCreated := true,
            statusIssued := some .completed,
            statusFinal := some (if o.updOk then .completed else .inProgress),
            persisted := rows }
        else execCatch "Failed to save execution results" o
    | .error msg => execCatch msg o

/- ===================== deploymentService.ts ===================== -/

/-- One row written to `deployment_results`. -/
structure DeployRow where
  deployment_url : Option String
  claim_url : Option String
  deploy_id : Option String
  success : Bool
  error_message : Option String
  build_logs : Option String
deriving DecidableEq, Repr

/-- Outcomes of the external calls made by one `deployProject` invocation. -/
structure DeployOracle where
  /-- the `deployment_requests` insert returns a row -/
  reqInsertOk : Bool
  /-- `performDeployment` resolved with this row (its `success` flag may be
  false), or rejected with this message (unknown deployment type throws) -/
  performOutcome : Except String DeployRow
  /-- the `deployment_results` insert of the produced row succeeds -/
  resultInsertOk : Bool
  /-- the best-effort error-row insert returned a row (`errorResult.data`) -/
  errInsertHasData : Bool
  /-- the (single) terminal status-update write succeeds; never inspected -/
  updOk : Bool
deriving Repr

/-- Observable outcome of one `deployProject` invocation. -/
structure DeployRun where
  result : Except String DeployRow
  requestCreated : Bool
  statusIssued : Option ReqStatus
  statusFinal : Option ReqStatus
  persisted : List DeployRow
deriving Repr

/-- The error row inserted by the catch block of `deployProject`. -/
def deployErrorRow (msg : String) : DeployRow :=
  { deployment_url := none, claim_url := none, deploy_id := none,
    success := false, error_message := some msg, build_logs := none }

/-- The message of the failure that reached the catch block: the original
error, or the persistence failure thrown on `resultError`. -/
def deployFailMsg (o : DeployOracle) : String :=
  match o.performOutcome with
  | .error m => m
  | .ok _ => "Failed to save deployment result"

/-- The catch block of `deployProject`: insert an error row, mark the
request failed, then return the saved error row if the insert yielded
one, else re-raise the original error. -/
def deployCatch (msg : String) (o : DeployOracle) : DeployRun :=
  { result := if o.errInsertHasData then .ok (deployErrorRow msg) else .error msg,
    requestCreated := true,
    statusIssued := some .failed,
    statusFinal := some (if o.updOk then .failed else .inProgress),
    persisted := if o.errInsertHasData then [deployErrorRow msg] else [] }

/-- `deploymentService.deployProject`: create the request (`in_progress`),
run `performDeployment`, persist the single result row, set the status to
completed or failed according to the result's `success` flag; any failure
after creation goes to `deployCatch`. -/
def deployProject (deploymentType : String) (configuration : List (String × String))
    (o : DeployOracle) : DeployRun :=
  if !o.reqInsertOk then
    { result := .error "Failed to create deployment request",
      requestCreated := false, statusIssued := none, statusFinal := none, persisted := [] }
  else
    match o.performOutcome with
    | .ok r =>
        if o.resultInsertOk then
          { result := .ok r,
            requestCreated := true,
            statusIssued := some (if r.success then .completed else .failed),
            statusFinal := some (if o.updOk then (if r.success then .completed else .failed) else .inProgress),
            persisted := [r] }
        else deployCatch "Failed to save deployment result" o
    | .error msg => deployCatch msg o

/- ============ PlanVisualization (workflow runner) ============ -/

/-- The fields of a `TaskPlan` that `handleAutoStartAll` reads. -/
structure Plan where
  id : String
  title : String
  description : Option String
deriving DecidableEq, Repr

/-- `AutoStartPreferences` from `AutoStartModal.tsx`. -/
structure AutoStartPreferences where
  enableResearch : Bool
  enableExecution : Bool
  enableDeployment : Bool
  autoProgressDelay : Nat
  researchDepth : String
  executionMode : String
  deploymentProvider : String
  pauseBetweenTasks : Bool
deriving Repr

/-- `generateAutoResearchQuery`: templated query from the step title and depth. -/
def generateAutoResearchQuery (plan : Plan) (depth : String) : String :=
  let baseQuery := plan.title ++ " best practices and implementation guide"
  if depth == "basic" then
    "Quick overview: " ++ baseQuery
  else if depth == "comprehensive" then
    "Comprehensive analysis including market research, case studies, and detailed implementation for: " ++ baseQuery
  else
    "Detailed research on " ++ baseQuery ++ " including tools, methods, and expert recommendations"

/-- `generateAutoExecutionInstructions`: templated instructions from the step
title/description and mode (`plan.description || ''`). -/
def generateAutoExecutionInstructions (plan : Plan) (mode : String) : String :=
  let baseInstructions := "Create implementation for: " ++ plan.title ++ ". " ++ plan.description.getD ""
  if mode == "conservative" then
    baseInstructions ++ ". Use simple, proven approaches with minimal dependencies."
  else if mode == "aggressive" then
    baseInstructions ++ ". Use cutting-edge technologies and advanced features."
  else
    baseInstructions ++ ". Use modern best practices with good balance of features and stability."

/-- The slug computed inside `generateAutoDeploymentConfig`:
`plan.title.toLowerCase().replace(/[^a-z0-9]/g, '-').substring(0, 30)`. -/
def planSlug (title : String) : String :=
  ⟨(((asciiLower title).data.map
      (fun c => if ('a' ≤ c ∧ c ≤ 'z') ∨ ('0' ≤ c ∧ c ≤ '9') then c else '-')).take 30)⟩

/-- `generateAutoDeploymentConfig`: provider-keyed configuration map. -/
def generateAutoDeploymentConfig (plan : Plan) (provider : String) : List (String × String) :=
  let slug := planSlug plan.title
  if provider == "netlify_static" then
    [("subdomain", slug), ("buildCommand", "npm run build")]
  else if provider == "vercel_static" then
    [("projectName", slug), ("framework", "react")]
  else if provider == "github_pages" then
    [("username", "auto-user"), ("repository", slug)]
  else
    []

/-- The phase indicator values of `currentAutoPhase`. -/
inductive AutoPhase
  | research
  | execution
  | deployment
deriving DecidableEq, Repr

/-- Externally observable events of one `handleAutoStartAll` run: a recorder
invocation for a step and phase, or a `console.error` from the per-step
catch block (the only reporting channel of the runner). -/
inductive AutoEvent
  | invoked (stepIdx : Nat) (phase : AutoPhase)
  | consoleError (stepIdx : Nat)
deriving DecidableEq, Repr

/-- The component state touched by `handleAutoStartAll` (eventual committed
values of the React state hooks). -/
structure RunnerState where
  isAutoRunning : Bool
  currentAutoTask : Option String
  currentAutoPhase : Option AutoPhase
  startedTasks : List String
  completedAutoTasks : List String
deriving Repr

/-- Oracles for every recorder invocation of a run, indexed by step. -/
structure AutoOracle where
  research : Nat → ResearchOracle
  execution : Nat → ExecOracle
  deployment : Nat → DeployOracle

/-- Deployment phase of one step, then the post-phase bookkeeping
(`setCompletedAutoTasks`) that only runs when no phase raised.
Returns (state, events, whether the step's try block raised). -/
def runStepDeploy (prefs : AutoStartPreferences) (o : AutoOracle) (i : Nat) (plan : Plan)
    (s : RunnerState) (evs : List AutoEvent) : RunnerState × List AutoEvent × Bool :=
  if prefs.enableDeployment then
    let s1 := { s with currentAutoPhase := some AutoPhase.deployment }
    let r := deployProject prefs.deploymentProvider
      (generateAutoDeploymentConfig plan prefs.deploymentProvider) (o.deployment i)
    match r.result with
    | .error _ => (s1, evs ++ [.invoked i .deployment, .consoleError i], true)
    | .ok _ =>
        ({ s1 with completedAutoTasks := s1.completedAutoTasks ++ [plan.id] },
         evs ++ [.invoked i .deployment], false)
  else
    ({ s with completedAutoTasks := s.completedAutoTasks ++ [plan.id] }, evs, false)

/-- Execution phase of one step, falling through to the deployment phase. -/
def runStepExec (prefs : AutoStartPreferences) (o : AutoOracle) (i : Nat) (plan : Plan)
    (s : RunnerState) (evs : List AutoEvent) : RunnerState × List AutoEvent × Bool :=
  if prefs.enableExecution then
    let s1 := { s with currentAutoPhase := some AutoPhase.execution }
    let r := executeTask "code_generation"
      (generateAutoExecutionInstructions plan prefs.executionMode) (o.execution i)
    match r.result with
    | .error _ => (s1, evs ++ [.invoked i .execution, .consoleError i], true)
    | .ok _ => runStepDeploy prefs o i plan s1 (evs ++ [.invoked i .execution])
  else
    runStepDeploy prefs o i plan s evs

/-- The try block for one step of `handleAutoStartAll`: research, then
execution, then deployment, each when enabled; a recorder error jumps to
the per-step catch (`console.error`, remaining phases skipped). -/
def runStep (prefs : AutoStartPreferences) (o : AutoOracle) (i : Nat) (plan : Plan)
    (s : RunnerState) : RunnerState × List AutoEvent × Bool :=
  if prefs.enableResearch then
    let s1 := { s with currentAutoPhase := some AutoPhase.research }
    let r := conductResearch (generateAutoResearchQuery plan prefs.researchDepth) (o.research i)
    match r.result with
    | .error _ => (s1, [.invoked i .research, .consoleError i], true)
    | .ok _ => runStepExec prefs o i plan s1 [.invoked i .research]
  else
    runStepExec prefs o i plan s []

/-- The `for (const plan of plans)` loop. `captured` is the value of the
`isAutoRunning` binding that the handler closed over when it was created:
`if (!isAutoRunning) break` reads THIS captured constant on every
iteration, not the live component state. -/
def runLoop (captured : Bool) (prefs : AutoStartPreferences) (o : AutoOracle) :
    Nat → List Plan → RunnerState → RunnerState × List AutoEvent
  | _, [], s => (s, [])
  | i, p :: rest, s =>
      if !captured then (s, [])
      else
        let s1 := { s with currentAutoTask := some p.id }
        let step := runStep prefs o i p s1
        let tail := runLoop captured prefs o (i + 1) rest step.1
        (tail.1, step.2.1 ++ tail.2)

/-- `PlanVisualization.handleAutoStartAll`: set the running flag and started
set, iterate the plans, then unconditionally reset to the idle state.
The handler is invoked from a render in which the Start All button is
visible, i.e. one where `isAutoRunning` was false, so at a real start
`captured = false`. -/
def handleAutoStartAll (captured : Bool) (plans : List Plan)
    (prefs : AutoStartPreferences) (o : AutoOracle) : RunnerState × List AutoEvent :=
  let s0 : RunnerState :=
    { isAutoRunning := true, currentAutoTask := none, currentAutoPhase := none,
      startedTasks := plans.map (·.id), completedAutoTasks := [] }
  let r := runLoop captured prefs o 0 plans s0
  ({ r.1 with isAutoRunning := false, currentAutoTask := none, currentAutoPhase := none }, r.2)

/-- The recorder-invocation subsequence of an event trace. -/
def invocations (evs : List AutoEvent) : List AutoEvent :=
  evs.filter fun e => match e with
    | .invoked _ _ => true
    | .consoleError _ => false

/- ===================== concrete fixtures ===================== -/

/-- Is an `Except` outcome a raised error? -/
def isErrOf {α : Type} : Except String α → Bool
  | .error _ => true
  | .ok _ => false

/-- A research oracle in which every collaborator call succeeds. -/
def researchOkO : ResearchOracle :=
  { reqInsertOk := true, edgeResults := some [], resultsInsertOk := true,
    updOk := true, fallbackInsertOk := true }

/-- An execution oracle in which every collaborator call succeeds. -/
def execOkO : ExecOracle :=
  { reqInsertOk := true, performOutcome := .ok [], resultsInsertOk := true,
    errInsertOk := true, updOk := true }

/-- A successful simulated deployment result row. -/
def okDeployRow : DeployRow :=
  { deployment_url := some "https://site.netlify.app", claim_url := none,
    deploy_id := some "netlify-1", success := true, error_message := none, build_logs := none }

/-- A deployment oracle in which every collaborator call succeeds. -/
def deployOkO : DeployOracle :=
  { reqInsertOk := true, performOutcome := .ok okDeployRow, resultInsertOk := true,
    errInsertHasData := true, updOk := true }

/-- An execution oracle: request creation succeeds, then content generation
rejects; all persistence succeeds. -/
def execPostFailOracle : ExecOracle :=
  { reqInsertOk := true, performOutcome := .error "boom", resultsInsertOk := true,
    errInsertOk := true, updOk := true }

/-- A research oracle whose run succeeds except that the unchecked terminal
status-update write fails. -/
def resUpdFailOracle : ResearchOracle :=
  { reqInsertOk := true, edgeResults := some [], resultsInsertOk := true,
    updOk := false, fallbackInsertOk := true }

/-- A research oracle: the edge function fails and the best-effort insert of
the fallback rows fails as well. -/
def resFallbackOracle : ResearchOracle :=
  { reqInsertOk := true, edgeResults := none, resultsInsertOk := true,
    updOk := true, fallbackInsertOk := false }

/-- An edge-function result carrying the JS-falsy relevance score 0. -/
def zeroScoreIncoming : IncomingResult :=
  { source_url := none, title := "t", content := "c", summary := none,
    relevance_score := some 0 }

/-- A research oracle delivering `zeroScoreIncoming` with all writes succeeding. -/
def resZeroOracle : ResearchOracle :=
  { reqInsertOk := true, edgeResults := some [zeroScoreIncoming], resultsInsertOk := true,
    updOk := true, fallbackInsertOk := true }

/-- A deployment oracle: request creation succeeds, the simulated deployment
rejects, and the best-effort error-row insert returns a row. -/
def deployPostFailOracle : DeployOracle :=
  { reqInsertOk := true, performOutcome := .error "deploy failed", resultInsertOk := true,
    errInsertHasData := true, updOk := true }

/-- A two-step plan list for running the workflow runner concretely. -/
def plan0 : Plan := { id := "p0", title := "Step Zero", description := some "d0" }

/-- Second step of the concrete plan list. -/
def plan1 : Plan := { id := "p1", title := "Step One", description := none }

/-- Preferences enabling all three phases. -/
def prefsAll : AutoStartPreferences :=
  { enableResearch := true, enableExecution := true, enableDeployment := true,
    autoProgressDelay := 1, researchDepth := "detailed", executionMode := "standard",
    deploymentProvider := "netlify_static", pauseBetweenTasks := false }

/-- A workflow oracle in which every recorder invocation of every step succeeds. -/
def oracleAllOk : AutoOracle :=
  { research := fun _ => researchOkO,
    execution := fun _ => execOkO,
    deployment := fun _ => deployOkO }

/-- A workflow oracle in which every execution-phase invocation raises
(post-creation content-generation failure) and the other phases succeed. -/
def oracleExecFails : AutoOracle :=
  { research := fun _ => researchOkO,
    execution := fun _ => execPostFailOracle,
    deployment := fun _ => deployOkO }

/- ===================== theorems ===================== -/

/-- Any goal selects one of the five fixed templates. -/
theorem analyzeGoal_cases (goal : String) :
    analyzeGoalAndCreatePlans goal = businessPlans ∨
    analyzeGoalAndCreatePlans goal = learnPlans ∨
    analyzeGoalAndCreatePlans goal = travelPlans ∨
    analyzeGoalAndCreatePlans goal = eventPlans ∨
    analyzeGoalAndCreatePlans goal = genericPlans := by
  simp only [analyzeGoalAndCreatePlans]
  repeat' split
  all_goals simp

/-- Every clamped relevance score lies in the closed interval [1, 10]. -/
theorem clampScore_bounds (s : Option Int) : 1 ≤ clampScore s ∧ clampScore s ≤ 10 :=
  ⟨le_min (by norm_num) (le_max_left 1 _), min_le_left _ _⟩

/-- C3 counterexample: the goal "travel" selects the travel template, which
has four plan-step drafts, not the claimed five. -/
theorem c3_counterexample :
    (analyzeGoalAndCreatePlans "travel").length = 4 ∧
    (analyzeGoalAndCreatePlans "travel").length ≠ 5 := by decide

/-- C3 (amended): `analyzeGoalAndCreatePlans` is total and always returns a
non-empty template of four or five plan-step drafts; the business, learn,
event and generic templates have five items, the travel template four. -/
theorem c3_template_sizes (goal : String) :
    analyzeGoalAndCreatePlans goal ≠ [] ∧
    ((analyzeGoalAndCreatePlans goal).length = 4 ∨ (analyzeGoalAndCreatePlans goal).length = 5) ∧
    businessPlans.length = 5 ∧ learnPlans.length = 5 ∧ travelPlans.length = 4 ∧
    eventPlans.length = 5 ∧ genericPlans.length = 5 := by
  rcases analyzeGoal_cases goal with h | h | h | h | h <;> rw [h] <;>
    exact ⟨by decide, by decide, by decide, by decide, by decide, by decide, by decide⟩

/-- C4: template selection resolves multi-group goals by the fixed test
order business, learn, travel, event, generic — it agrees everywhere with
top-down dispatch over the ordered keyword-group list — and the input
"learn to travel" yields the learn template, not the travel template. -/
theorem c4_keyword_precedence :
    (∀ goal : String, analyzeGoalAndCreatePlans goal = firstMatchingTemplate goal) ∧
    analyzeGoalAndCreatePlans "learn to travel" = learnPlans ∧
    analyzeGoalAndCreatePlans "learn to travel" ≠ travelPlans := by
  refine ⟨?_, by decide, by decide⟩
  intro goal
  simp [analyzeGoalAndCreatePlans, firstMatchingTemplate, dispatchTemplates,
    planKeywordGroups, Bool.or_assoc]

/-- C8: the auto-deployment slug is the step title lower-cased with every
character outside [a-z0-9] replaced by a dash and truncated to 30
characters; it is what the netlify configuration carries as `subdomain`,
and the title "Market Research & Validation!!" deterministically yields
"market-research---validation--". -/
theorem c8_slug_derivation :
    (∀ p : Plan, generateAutoDeploymentConfig p "netlify_static" =
      [("subdomain", planSlug p.title), ("buildCommand", "npm run build")]) ∧
    planSlug "Market Research & Validation!!" = "market-research---validation--" ∧
    (∀ t : String, (planSlug t).length ≤ 30) ∧
    (∀ t : String, ∀ c ∈ (planSlug t).data,
      ('a' ≤ c ∧ c ≤ 'z') ∨ ('0' ≤ c ∧ c ≤ '9') ∨ c = '-') := by
  refine ⟨fun p => rfl, by decide, ?_, ?_⟩
  · intro t
    have h : (planSlug t).length =
        (((asciiLower t).data.map
          (fun c => if ('a' ≤ c ∧ c ≤ 'z') ∨ ('0' ≤ c ∧ c ≤ '9') then c else '-')).take 30).length := rfl
    rw [h, List.length_take]
    exact min_le_left _ _
  · intro t c hc
    have hc' : c ∈ (asciiLower t).data.map
        (fun c => if ('a' ≤ c ∧ c ≤ 'z') ∨ ('0' ≤ c ∧ c ≤ '9') then c else '-') :=
      List.take_subset _ _ hc
    rcases List.mem_map.mp hc' with ⟨a, _, ha⟩
    by_cases h : ('a' ≤ a ∧ a ≤ 'z') ∨ ('0' ≤ a ∧ a ≤ '9')
    · rw [if_pos h] at ha
      subst ha
      rcases h with h | h
      · exact Or.inl h
      · exact Or.inr (Or.inl h)
    · rw [if_neg h] at ha
      subst ha
      exact Or.inr (Or.inr rfl)

/-- C9 counterexample: an incoming relevance score of 0 is persisted as 5
(JS `|| 5` treats 0 as missing), while the claimed clamp formula
`min(10, max(1, score))` yields 1. -/
theorem c9_counterexample :
    (conductResearch "q" resZeroOracle).persisted.map (fun r => r.relevance_score) = [5] ∧
    min 10 (max 1 (0 : Int)) = 1 ∧ (5 : Int) ≠ 1 := by decide

/-- C9 (amended): on the success path of `conductResearch` the persisted rows
are the incoming results with scores clamped by `clampScore`, so every
persisted relevance score lies in [1, 10]; a missing score and a zero
score (JS-falsy) default to 5, and every non-zero score is clamped with
`min(10, max(1, score))` as claimed. -/
theorem c9_score_clamped (q : String) (ro : ResearchOracle) (incoming : List IncomingResult)
    (v : Int) (h1 : ro.reqInsertOk = true) (h2 : ro.edgeResults = some incoming)
    (h3 : ro.resultsInsertOk = true) (hv : v ≠ 0) :
    (∀ row ∈ (conductResearch q ro).persisted,
      1 ≤ row.relevance_score ∧ row.relevance_score ≤ 10) ∧
    (conductResearch q ro).persisted = incoming.map toResearchRow ∧
    clampScore none = 5 ∧ clampScore (some 0) = 5 ∧
    clampScore (some v) = min 10 (max 1 v) := by
  have hp : (conductResearch q ro).persisted = incoming.map toResearchRow := by
    simp [conductResearch, h1, h2, h3]
  refine ⟨?_, hp, by decide, by decide, ?_⟩
  · intro row hrow
    rw [hp] at hrow
    rcases List.mem_map.mp hrow with ⟨r, _, hr⟩
    have := clampScore_bounds r.relevance_score
    rw [← hr]
    exact this
  · simp [clampScore, jsOrFive, hv]

/-- C9 witness: the amended theorem applied to the concrete oracle carrying
a zero score, with 7 as the non-zero sample score. -/
theorem c9_score_clamped_witness :
    (∀ row ∈ (conductResearch "q" resZeroOracle).persisted,
      1 ≤ row.relevance_score ∧ row.relevance_score ≤ 10) ∧
    (conductResearch "q" resZeroOracle).persisted = [zeroScoreIncoming].map toResearchRow ∧
    clampScore none = 5 ∧ clampScore (some 0) = 5 ∧
    clampScore (some 7) = min 10 (max 1 7) :=
  c9_score_clamped "q" resZeroOracle [zeroScoreIncoming] 7 rfl rfl rfl (by decide)

/-- C2 counterexample: `executeTask` raises even though the request row was
created — a post-creation content-generation failure is re-raised by its
catch block, contradicting the claim that recorders raise only on
request-creation failure. -/
theorem c2_counterexample :
    (executeTask "code_generation" "x" execPostFailOracle).requestCreated = true ∧
    (executeTask "code_generation" "x" execPostFailOracle).result = .error "boom" :=
  ⟨rfl, rfl⟩

/-- C2 (amended): `conductResearch` raises exactly when the request-creation
write fails; `executeTask` additionally re-raises every post-creation
failure (content generation or result persistence) after best-effort
bookkeeping; `deployProject` additionally re-raises a post-creation
failure exactly when the best-effort error-row insert returns no row. -/
theorem c2_error_propagation (q et ins dt : String) (cfg : List (String × String))
    (ro : ResearchOracle) (eo : ExecOracle) (dO : DeployOracle) :
    isErrOf (conductResearch q ro).result = !ro.reqInsertOk ∧
    isErrOf (executeTask et ins eo).result =
      (!eo.reqInsertOk || isErrOf eo.performOutcome || !eo.resultsInsertOk) ∧
    isErrOf (deployProject dt cfg dO).result =
      (!dO.reqInsertOk ||
        ((isErrOf dO.performOutcome || !dO.resultInsertOk) && !dO.errInsertHasData)) := by
  refine ⟨?_, ?_, ?_⟩
  · rcases ro with ⟨ri, er, rio, uo, fo⟩
    cases ri <;> cases er <;> cases rio <;>
      simp [conductResearch, researchCatch, isErrOf]
  · rcases eo with ⟨ri, po, rio, eio, uo⟩
    cases ri <;> rcases po with m | rows <;> cases rio <;>
      simp [executeTask, execCatch, isErrOf]
  · rcases dO with ⟨ri, po, rio, eh, uo⟩
    cases ri <;> rcases po with m | r <;> cases rio <;> cases eh <;>
      simp [deployProject, deployCatch, isErrOf]

/-- C5 counterexample: when the unchecked terminal status-update write fails,
a resolved `conductResearch` invocation leaves its created request at
`in_progress`, contradicting the claim that this never happens. -/
theorem c5_counterexample :
    (conductResearch "q" resUpdFailOracle).requestCreated = true ∧
    (conductResearch "q" resUpdFailOracle).result = .ok [] ∧
    (conductResearch "q" resUpdFailOracle).statusFinal = some ReqStatus.inProgress :=
  ⟨rfl, rfl, rfl⟩

/-- C5 (amended): every resolution path of the three recorders with a created
request issues exactly one terminal status update, to `completed` or
`failed`, and provided that (unchecked) update write succeeds the request
finishes in that terminal status — never `in_progress`. -/
theorem c5_terminal_status (q et ins dt : String) (cfg : List (String × String))
    (ro : ResearchOracle) (eo : ExecOracle) (dO : DeployOracle)
    (hr : ro.reqInsertOk = true) (hru : ro.updOk = true)
    (he : eo.reqInsertOk = true) (heu : eo.updOk = true)
    (hd : dO.reqInsertOk = true) (hdu : dO.updOk = true) :
    (((conductResearch q ro).statusIssued = some ReqStatus.completed ∨
        (conductResearch q ro).statusIssued = some ReqStatus.failed) ∧
      (conductResearch q ro).statusFinal = (conductResearch q ro).statusIssued) ∧
    (((executeTask et ins eo).statusIssued = some ReqStatus.completed ∨
        (executeTask et ins eo).statusIssued = some ReqStatus.failed) ∧
      (executeTask et ins eo).statusFinal = (executeTask et ins eo).statusIssued) ∧
    (((deployProject dt cfg dO).statusIssued = some ReqStatus.completed ∨
        (deployProject dt cfg dO).statusIssued = some ReqStatus.failed) ∧
      (deployProject dt cfg dO).statusFinal = (deployProject dt cfg dO).statusIssued) := by
  refine ⟨?_, ?_, ?_⟩
  · rcases hE : ro.edgeResults with _ | incoming <;> cases hRio : ro.resultsInsertOk <;>
      simp [conductResearch, researchCatch, hr, hru, hE, hRio]
  · rcases hP : eo.performOutcome with m | rows <;> cases hRio : eo.resultsInsertOk <;>
      simp [executeTask, execCatch, he, heu, hP, hRio]
  · rcases hP : dO.performOutcome with m | r
    · cases hRio : dO.resultInsertOk <;>
        simp [deployProject, deployCatch, hd, hdu, hP, hRio]
    · cases hRio : dO.resultInsertOk <;> cases hS : r.success <;>
        simp [deployProject, deployCatch, hd, hdu, hP, hRio, hS]

/-- C5 witness: the amended terminal-status theorem at concrete all-ok oracles. -/
theorem c5_terminal_status_witness :
    (((conductResearch "q" researchOkO).statusIssued = some ReqStatus.completed ∨
        (conductResearch "q" researchOkO).statusIssued = some ReqStatus.failed) ∧
      (conductResearch "q" researchOkO).statusFinal = (conductResearch "q" researchOkO).statusIssued) ∧
    (((executeTask "code_generation" "i" execOkO).statusIssued = some ReqStatus.completed ∨
        (executeTask "code_generation" "i" execOkO).statusIssued = some ReqStatus.failed) ∧
      (executeTask "code_generation" "i" execOkO).statusFinal =
        (executeTask "code_generation" "i" execOkO).statusIssued) ∧
    (((deployProject "netlify_static" [] deployOkO).statusIssued = some ReqStatus.completed ∨
        (deployProject "netlify_static" [] deployOkO).statusIssued = some ReqStatus.failed) ∧
      (deployProject "netlify_static" [] deployOkO).statusFinal =
        (deployProject "netlify_static" [] deployOkO).statusIssued) :=
  c5_terminal_status "q" "code_generation" "i" "netlify_static" []
    researchOkO execOkO deployOkO rfl rfl rfl rfl rfl rfl

/-- C6: when the edge function or the persistence of its results fails after
the research request row is created, `conductResearch` marks the request
failed and returns the fallback rows generated from the query instead of
raising; this holds for every outcome of the best-effort fallback insert,
so a failure while persisting the fallback rows is swallowed and the
in-memory fallback rows are still returned. -/
theorem c6_research_fallback (q : String) (ro : ResearchOracle)
    (h1 : ro.reqInsertOk = true) (h2 : ro.edgeResults = none ∨ ro.resultsInsertOk = false) :
    (conductResearch q ro).result = .ok (generateFallbackResults q) ∧
    (conductResearch q ro).statusIssued = some ReqStatus.failed := by
  rcases h2 with h2 | h2
  · simp [conductResearch, researchCatch, h1, h2]
  · rcases hE : ro.edgeResults with _ | incoming <;>
      simp [conductResearch, researchCatch, h1, h2, hE]

/-- C6 witness: the fallback theorem at a concrete oracle whose fallback
insert itself fails — the in-memory fallback rows are still returned. -/
theorem c6_research_fallback_witness :
    (conductResearch "plan a trip" resFallbackOracle).result =
      .ok (generateFallbackResults "plan a trip") ∧
    (conductResearch "plan a trip" resFallbackOracle).statusIssued = some ReqStatus.failed :=
  c6_research_fallback "plan a trip" resFallbackOracle rfl (Or.inl rfl)

/-- C10: when deployment fails after the request row was created, the catch
block of `deployProject` returns the saved error row (whose `success` is
false) whenever the best-effort error-row insert yields a row, and
re-raises the original error exactly when it does not; either way the
request is marked failed. -/
theorem c10_deploy_error_row (dt : String) (cfg : List (String × String)) (dO : DeployOracle)
    (h1 : dO.reqInsertOk = true)
    (h2 : isErrOf dO.performOutcome = true ∨ dO.resultInsertOk = false) :
    (deployProject dt cfg dO).result =
      (if dO.errInsertHasData then .ok (deployErrorRow (deployFailMsg dO))
       else .error (deployFailMsg dO)) ∧
    (deployErrorRow (deployFailMsg dO)).success = false ∧
    (deployProject dt cfg dO).statusIssued = some ReqStatus.failed := by
  rcases hP : dO.performOutcome with m | r
  · simp [deployProject, deployCatch, deployFailMsg, deployErrorRow, h1, hP]
  · rcases h2 with h2 | h2
    · rw [hP] at h2
      simp [isErrOf] at h2
    · simp [deployProject, deployCatch, deployFailMsg, deployErrorRow, h1, hP, h2]

/-- C10 witness: the theorem at a concrete post-creation deployment failure
whose error-row insert returns a row. -/
theorem c10_deploy_error_row_witness :
    (deployProject "netlify_static" [] deployPostFailOracle).result =
      (if deployPostFailOracle.errInsertHasData then
        .ok (deployErrorRow (deployFailMsg deployPostFailOracle))
       else .error (deployFailMsg deployPostFailOracle)) ∧
    (deployErrorRow (deployFailMsg deployPostFailOracle)).success = false ∧
    (deployProject "netlify_static" [] deployPostFailOracle).statusIssued =
      some ReqStatus.failed :=
  c10_deploy_error_row "netlify_static" [] deployPostFailOracle rfl (Or.inl rfl)

/-- C1 (stale-closure defect): at a real start — the Start All button is
rendered only while `isAutoRunning` is false, so the handler closes over
`captured = false` — the loop guard `if (!isAutoRunning) break` exits
before the first phase and ZERO recorder invocations occur instead of the
claimed N×3; the claimed strict step-major, phase-minor order is produced
only under the counterfactual captured value true. -/
theorem c1_stale_closure_zero_invocations :
    invocations (handleAutoStartAll false [plan0, plan1] prefsAll oracleAllOk).2 = [] ∧
    invocations (handleAutoStartAll true [plan0, plan1] prefsAll oracleAllOk).2 =
      [.invoked 0 .research, .invoked 0 .execution, .invoked 0 .deployment,
       .invoked 1 .research, .invoked 1 .execution, .invoked 1 .deployment] :=
  ⟨rfl, rfl⟩

/-- C7: for every captured flag, plan list, preference set and collaborator
behaviour — however many recorder invocations raise — `handleAutoStartAll`
ends in the clean idle state: `isAutoRunning` false and `currentAutoTask`
and `currentAutoPhase` null; the run itself raises nothing (its result
type carries no error), and per-step failures appear in its event trace
only as `console.error` events. -/
theorem c7_runner_idle_after_run (captured : Bool) (plans : List Plan)
    (prefs : AutoStartPreferences) (o : AutoOracle) :
    (handleAutoStartAll captured plans prefs o).1.isAutoRunning = false ∧
    (handleAutoStartAll captured plans prefs o).1.currentAutoTask = none ∧
    (handleAutoStartAll captured plans prefs o).1.currentAutoPhase = none :=
  ⟨rfl, rfl, rfl⟩

/-- A run with failing execution phases still ends idle and reports each
failure only as a console event (concrete instance backing C7). -/
theorem runner_failures_console_only :
    (handleAutoStartAll true [plan0, plan1] prefsAll oracleExecFails).1.isAutoRunning = false ∧
    (handleAutoStartAll true [plan0, plan1] prefsAll oracleExecFails).2 =
      [.invoked 0 .research, .invoked 0 .execution, .consoleError 0,
       .invoked 1 .research, .invoked 1 .execution, .consoleError 1] :=
  ⟨rfl, rfl⟩

/-- C2 witness: the propagation characterisation at concrete oracles. -/
theorem c2_error_propagation_witness :
    isErrOf (conductResearch "q" researchOkO).result = !researchOkO.reqInsertOk ∧
    isErrOf (executeTask "t" "i" execPostFailOracle).result =
      (!execPostFailOracle.reqInsertOk || isErrOf execPostFailOracle.performOutcome ||
        !execPostFailOracle.resultsInsertOk) ∧
    isErrOf (deployProject "d" [] deployOkO).result =
      (!deployOkO.reqInsertOk ||
        ((isErrOf deployOkO.performOutcome || !deployOkO.resultInsertOk) &&
          !deployOkO.errInsertHasData)) :=
  c2_error_propagation "q" "t" "i" "d" [] researchOkO execPostFailOracle deployOkO

/-- C3 witness: the amended sizing theorem at a concrete business goal. -/
theorem c3_template_sizes_witness :
    analyzeGoalAndCreatePlans "start a business" ≠ [] ∧
    ((analyzeGoalAndCreatePlans "start a business").length = 4 ∨
      (analyzeGoalAndCreatePlans "start a business").length = 5) ∧
    businessPlans.length = 5 ∧ learnPlans.length = 5 ∧ travelPlans.length = 4 ∧
    eventPlans.length = 5 ∧ genericPlans.length = 5 :=
  c3_template_sizes "start a business"

/-- C4 witness: the dispatch agreement at a concrete multi-group goal. -/
theorem c4_keyword_precedence_witness :
    analyzeGoalAndCreatePlans "startup to learn travel" =
      firstMatchingTemplate "startup to learn travel" :=
  c4_keyword_precedence.1 "startup to learn travel"

/-- C7 witness: the idle-state theorem at a concrete failing run. -/
theorem c7_runner_idle_after_run_witness :
    (handleAutoStartAll true [plan0, plan1] prefsAll oracleExecFails).1.isAutoRunning = false ∧
    (handleAutoStartAll true [plan0, plan1] prefsAll oracleExecFails).1.currentAutoTask = none ∧
    (handleAutoStartAll true [plan0, plan1] prefsAll oracleExecFails).1.currentAutoPhase = none :=
  c7_runner_idle_after_run true [plan0, plan1] prefsAll oracleExecFails

/-- C8 witness: the slug charset clause applied to a concrete title and
character, discharging the membership hypothesis. -/
theorem c8_slug_derivation_witness :
    ('a' ≤ 'm' ∧ 'm' ≤ 'z') ∨ ('0' ≤ 'm' ∧ 'm' ≤ '9') ∨ 'm' = '-' :=
  c8_slug_derivation.2.2.2 "Market!" 'm' (by decide)
